import Mathlib

/-
Shallow embedding of the apps_size_apps repository: two command-line
entrypoints (src/python/click_main.py and src/python/argparse_main.py)
over a single sqlite table `updates` with columns (name, size, date).

Modelling decisions, all taken from the source:
- A database is modelled by the state of its `updates` table: `none` when
  the table does not exist (including a freshly created database file, and
  a fresh in-memory database), `some rows` when it exists and holds `rows`
  in rowid (insertion) order.
- All three columns are stored as the text sqlite receives: the click
  entrypoint passes `name` and `size` through from the command line
  unchanged, and the date as the ISO string of `datetime.date.today()`;
  the argparse entrypoint passes `str(datetime.date.today())`. The date
  of invocation is therefore a `today : String` parameter.
- sqlite3 raises `OperationalError` for `DROP TABLE` without a table,
  `CREATE TABLE` over an existing table, and `INSERT`/`SELECT` without a
  table; tuple unpacking of a list whose length is not 2 raises
  `ValueError`. Neither entrypoint defines or raises any other exception
  class (there is no ValidationError or StorageError in the source).
- Each operation is recorded as an `ExecResult`: the database state it
  leaves behind, the value returned or the uncaught exception propagated,
  and whether the sqlite connection it opened was closed by the time it
  exited (`conn.close()` reached, or the `finally` of `get_db_conn`).
-/

namespace AppsSizes

/-- One row of the `updates` table: columns (name, size, date), each stored
as the text supplied to the INSERT statement. -/
structure Row where
  name : String
  size : String
  date : String
deriving DecidableEq, Repr

/-- A database: `none` when the `updates` table does not exist, `some rows`
when it exists with `rows` in insertion order. -/
abbrev DB := Option (List Row)

/-- The Python exceptions the two entrypoints can raise:
`sqlite3.OperationalError` (with its message) and `ValueError` (from tuple
unpacking in `argparse_main.main`). -/
inductive PyError where
  | operationalError (msg : String)
  | valueError
deriving DecidableEq, Repr

/-- `conn.execute("CREATE TABLE updates (name, size, date)")`: creates the
empty table, or raises `OperationalError` when it already exists. -/
def createTable (db : DB) : Except PyError DB :=
  match db with
  | some _ => .error (.operationalError "table updates already exists")
  | none => .ok (some [])

/-- `conn.execute("DROP TABLE updates")`: removes the table, or raises
`OperationalError` when it does not exist. -/
def dropTable (db : DB) : Except PyError DB :=
  match db with
  | none => .error (.operationalError "no such table: updates")
  | some _ => .ok none

/-- `conn.execute("INSERT INTO updates VALUES (?, ?, ?)", r)`: appends one
row, or raises `OperationalError` when the table does not exist. -/
def insertRow (db : DB) (r : Row) : Except PyError DB :=
  match db with
  | none => .error (.operationalError "no such table: updates")
  | some rows => .ok (some (rows ++ [r]))

/-- `cursor.execute("SELECT * FROM updates"); cursor.fetchall()`: all rows
in insertion order, or `OperationalError` when the table does not exist. -/
def selectAll (db : DB) : Except PyError (List Row) :=
  match db with
  | none => .error (.operationalError "no such table: updates")
  | some rows => .ok rows

/-- Outcome of running one entrypoint operation: the database state left
behind, the returned value or uncaught exception, and whether the sqlite
connection opened by the operation was closed on its exit path. -/
structure ExecResult (α : Type) where
  db : DB
  result : Except PyError α
  connClosed : Bool
deriving Repr

/-- `sqlite3.connect(":memory:")` yields a fresh empty in-memory database,
which has no `updates` table and is destroyed when its connection closes.
Two such connections never share state. -/
def memoryDB : DB := none

namespace ClickMain

/-- `initialize_database` (command `init-db`) of click_main.py:
`conn = sqlite3.connect(db_name)`; if `force` then `DROP TABLE updates`;
`CREATE TABLE updates (name, size, date)`; `conn.close()`. There is no
try/finally, so an exception from DROP or CREATE propagates uncaught with
the connection still open. -/
def init_db (db : DB) (force : Bool) : ExecResult Unit :=
  match (if force then dropTable db else .ok db) with
  | .error e => ⟨db, .error e, false⟩
  | .ok db1 =>
    match createTable db1 with
    | .error e => ⟨db1, .error e, false⟩
    | .ok db2 => ⟨db2, .ok (), true⟩

/-- `update` of click_main.py: inside `with get_db_conn(db_name)`, execute
`INSERT INTO updates VALUES (?, ?, ?)` with `(name, size,
datetime.date.today())` and commit. `name` and `size` are passed through
exactly as received from the command line; no validation of any kind is
performed. The context manager closes the connection on every exit path. -/
def update (db : DB) (name size today : String) : ExecResult Unit :=
  match insertRow db ⟨name, size, today⟩ with
  | .error e => ⟨db, .error e, true⟩
  | .ok db2 => ⟨db2, .ok (), true⟩

/-- `summary` of click_main.py: inside `with get_db_conn(db_name)`, execute
`SELECT * FROM updates` and fetch all rows. The rows themselves are the
entire result; no statistics are computed from them. -/
def summary (db : DB) : ExecResult (List Row) :=
  match selectAll db with
  | .error e => ⟨db, .error e, true⟩
  | .ok rows => ⟨db, .ok rows, true⟩

/-- The text printed by `summary`:
`"\n".join(", ".join(row) for row in rows)`. -/
def summaryOutput (rows : List Row) : String :=
  String.intercalate "\n"
    (rows.map fun r => String.intercalate ", " [r.name, r.size, r.date])

end ClickMain

namespace ArgparseMain

/-- `initialize_database` of argparse_main.py:
`conn = sqlite3.connect(db_name)`; `CREATE TABLE updates (name, size,
date)`; `conn.close()`. No force flag and no try/finally: a CREATE failure
propagates uncaught with the connection still open. -/
def init_db (db : DB) : ExecResult Unit :=
  match createTable db with
  | .error e => ⟨db, .error e, false⟩
  | .ok db2 => ⟨db2, .ok (), true⟩

/-- Outcome of `main` of argparse_main.py: the value printed (the row
returned by `cursor.fetchone()`) or the uncaught exception, together with
the rows present in the insert/fetch connection when it closes. -/
structure MainTrace where
  result : Except PyError (Option Row)
  insertedRows : List Row
deriving Repr

/-- Body of the `with get_db_conn(":memory:")` block in `main`:
`CREATE TABLE updates (name, size, date)`; `INSERT INTO updates VALUES
(?, ?, ?)` with `(app_name, app_size, str(datetime.date.today()))`;
`SELECT * FROM updates`; `cursor.fetchone()`. -/
def mainBody (db : DB) (n s today : String) : Except PyError (DB × Option Row) := do
  let db1 ← createTable db
  let db2 ← insertRow db1 ⟨n, s, today⟩
  let rows ← selectAll db2
  pure (db2, rows.head?)

/-- `main` of argparse_main.py, applied to the parsed positional `update`
arguments: it calls `initialize_database(":memory:")` (a connection to a
fresh in-memory database, discarded when that call closes it), then
unpacks `app_name, app_size = args.update` (raising `ValueError` unless
the list has exactly two elements), then runs `mainBody` on a second,
fresh in-memory connection. `main` takes no database: it never touches an
on-disk store. -/
def main (args : List String) (today : String) : MainTrace :=
  match (init_db memoryDB).result with
  | .error e => ⟨.error e, []⟩
  | .ok _ =>
    match args with
    | [n, s] =>
      match mainBody memoryDB n s today with
      | .error e => ⟨.error e, []⟩
      | .ok (db2, r) => ⟨.ok r, db2.getD []⟩
    | _ => ⟨.error .valueError, []⟩

end ArgparseMain

/-- Claim C1, evaluated at a failing input: the summary command merely
echoes the raw rows. On a store holding two records it returns exactly
those rows and prints them joined with ", " and newlines; no weekly,
monthly or yearly total, no most-updated app, no mean and no median is
computed anywhere in its behaviour. -/
theorem summary_merely_echoes_rows :
    (ClickMain.summary (some [⟨"A", "10", "2025-10-05"⟩, ⟨"B", "5", "2025-09-01"⟩])).result
      = Except.ok [⟨"A", "10", "2025-10-05"⟩, ⟨"B", "5", "2025-09-01"⟩] ∧
    ClickMain.summaryOutput [⟨"A", "10", "2025-10-05"⟩, ⟨"B", "5", "2025-09-01"⟩]
      = "A, 10, 2025-10-05\nB, 5, 2025-09-01" :=
  ⟨rfl, rfl⟩

/-- Claim C2, evaluated at failing inputs: the update command performs no
validation. An empty name, a non-positive size and a non-numeric size are
all inserted successfully, each appending exactly one row; no
ValidationError exists anywhere in the program. -/
theorem update_inserts_without_validation :
    ClickMain.update (some []) "" "-5" "2025-10-12"
      = ⟨some [⟨"", "-5", "2025-10-12"⟩], Except.ok (), true⟩ ∧
    ClickMain.update (some []) "x" "abc" "2025-10-12"
      = ⟨some [⟨"x", "abc", "2025-10-12"⟩], Except.ok (), true⟩ ∧
    ClickMain.update (some []) "y" "0" "2025-10-12"
      = ⟨some [⟨"y", "0", "2025-10-12"⟩], Except.ok (), true⟩ :=
  ⟨rfl, rfl, rfl⟩

/-- Claim C3 counterexample: with the updates table absent, init-db with
force=true does not succeed: the DROP TABLE statement raises an uncaught
OperationalError, no table is created, and the connection is left open. -/
theorem init_db_force_fails_on_missing_table :
    ClickMain.init_db none true
      = ⟨none, Except.error (PyError.operationalError "no such table: updates"), false⟩ :=
  rfl

/-- Claim C3 amended: when the updates table already exists, init-db with
force=true succeeds and leaves an empty updates table, discarding all
prior records; when the table is absent, it fails with an uncaught
OperationalError from DROP TABLE and creates no table. -/
theorem init_db_force_resets_existing_table (rows : List Row) :
    ClickMain.init_db (some rows) true = ⟨some [], Except.ok (), true⟩ ∧
    ClickMain.init_db none true
      = ⟨none, Except.error (PyError.operationalError "no such table: updates"), false⟩ :=
  ⟨rfl, rfl⟩

/-- Claim C4 counterexample: on an already-initialized store, init-db
without force does not report a StorageError to the caller: the program
defines no StorageError, the raw sqlite OperationalError from CREATE TABLE
propagates uncaught (an unhandled crash), and `connClosed = false` shows
the exit path skips `conn.close()`. -/
theorem init_db_no_force_uncaught_error :
    ClickMain.init_db (some [⟨"A", "10", "2025-10-05"⟩]) false
      = ⟨some [⟨"A", "10", "2025-10-05"⟩],
         Except.error (PyError.operationalError "table updates already exists"), false⟩ :=
  rfl

/-- Claim C4 amended: whenever the updates table already exists,
initialization without force fails in both entrypoints with an uncaught
sqlite OperationalError that propagates out of the command with the
connection still open, and it leaves the existing table and its rows
unchanged. -/
theorem init_db_no_force_table_preserved (rows : List Row) :
    ClickMain.init_db (some rows) false
      = ⟨some rows,
         Except.error (PyError.operationalError "table updates already exists"), false⟩ ∧
    ArgparseMain.init_db (some rows)
      = ⟨some rows,
         Except.error (PyError.operationalError "table updates already exists"), false⟩ :=
  ⟨rfl, rfl⟩

/-- Claim C5: for every prior table contents and every (name, size, date)
triple — in particular every valid one — update followed by summary
returns the previously stored records unchanged and in their original
order, followed by exactly the newly inserted record at the end, with all
field values preserved exactly. -/
theorem update_then_summary_appends (rows : List Row) (n s t : String) :
    (ClickMain.update (some rows) n s t).db = some (rows ++ [⟨n, s, t⟩]) ∧
    (ClickMain.summary ((ClickMain.update (some rows) n s t).db)).result
      = Except.ok (rows ++ [⟨n, s, t⟩]) :=
  ⟨rfl, rfl⟩

/-- Claim C6 counterexample: the argparse initialize_database leaves its
connection open while propagating the CREATE TABLE error, so not every
operation releases its connection on every exit path. -/
theorem argparse_init_db_leaks_connection :
    (ArgparseMain.init_db (some [⟨"B", "5", "2025-09-01"⟩])).connClosed = false ∧
    (ArgparseMain.init_db (some [⟨"B", "5", "2025-09-01"⟩])).result
      = Except.error (PyError.operationalError "table updates already exists") :=
  ⟨rfl, rfl⟩

/-- Claim C6 amended: the update and summary commands (which go through the
get_db_conn context manager) close their connection on every exit path,
but initialize_database in both entrypoints opens its connection without
try/finally and leaks it on every error path (CREATE TABLE over an
existing table, or DROP TABLE with no table). -/
theorem connection_release_discipline :
    (∀ db n s t, (ClickMain.update db n s t).connClosed = true) ∧
    (∀ db, (ClickMain.summary db).connClosed = true) ∧
    (∀ rows, (ClickMain.init_db (some rows) false).connClosed = false) ∧
    (ClickMain.init_db none true).connClosed = false ∧
    (∀ rows, (ArgparseMain.init_db (some rows)).connClosed = false) := by
  refine ⟨?_, ?_, ?_, rfl, ?_⟩
  · intro db n s t; cases db <;> rfl
  · intro db; cases db <;> rfl
  · intro rows; rfl
  · intro rows; rfl

/-- Claim C7 counterexample: starting from a store holding one prior
record, the click update command yields a store with both records, while
the argparse entrypoint (which only ever sees fresh in-memory databases)
reports a single record; the reported record sequences differ. -/
theorem entrypoints_diverge_on_nonempty_store :
    (ClickMain.update (some [⟨"B", "5", "2025-01-01"⟩]) "A" "10" "2025-10-12").db
      = some [⟨"B", "5", "2025-01-01"⟩, ⟨"A", "10", "2025-10-12"⟩] ∧
    (ArgparseMain.main ["A", "10"] "2025-10-12").insertedRows
      = [⟨"A", "10", "2025-10-12"⟩] ∧
    ([⟨"B", "5", "2025-01-01"⟩, ⟨"A", "10", "2025-10-12"⟩] : List Row)
      ≠ [⟨"A", "10", "2025-10-12"⟩] :=
  ⟨rfl, rfl, by decide⟩

/-- Claim C7 amended: both entrypoints perform the same storage
operations (create table, insert a row stamped with the invocation date,
select the rows), and starting from an empty table they produce the same
single record for the same (name, size) input; but the argparse entrypoint
operates only on fresh in-memory databases, so for every nonempty starting
store the record sequence it reports differs from the click result — the
two entrypoints are not state-for-state equivalent. -/
theorem entrypoints_agree_only_on_fresh_store (n s t : String) (r0 : Row) (rows : List Row) :
    (ClickMain.update (some []) n s t).db = some [⟨n, s, t⟩] ∧
    (ArgparseMain.main [n, s] t).insertedRows = [⟨n, s, t⟩] ∧
    (ClickMain.update (some (r0 :: rows)) n s t).db = some (r0 :: (rows ++ [⟨n, s, t⟩])) ∧
    (ArgparseMain.main [n, s] t).insertedRows ≠ r0 :: (rows ++ [⟨n, s, t⟩]) := by
  refine ⟨rfl, rfl, rfl, ?_⟩
  intro h
  have h2 : ([⟨n, s, t⟩] : List Row) = r0 :: (rows ++ [⟨n, s, t⟩]) := h
  have h3 := congrArg List.length h2
  simp only [List.length_cons, List.length_append, List.length_singleton,
    List.length_nil] at h3
  omega

/-- Claim C8: when the parsed positional update arguments do not have
exactly two elements, main raises an uncaught ValueError at tuple
unpacking and inserts no row; when exactly two are supplied, the insert is
attempted and appends the one corresponding row. -/
theorem main_unpack_guard (args : List String) (t : String) :
    (args.length ≠ 2 →
      (ArgparseMain.main args t).result = Except.error PyError.valueError ∧
      (ArgparseMain.main args t).insertedRows = []) ∧
    (∀ n s, args = [n, s] →
      (ArgparseMain.main args t).insertedRows = [⟨n, s, t⟩]) := by
  constructor
  · intro hlen
    rcases args with _ | ⟨a, _ | ⟨b, _ | ⟨c, rest⟩⟩⟩
    · exact ⟨rfl, rfl⟩
    · exact ⟨rfl, rfl⟩
    · exact absurd rfl hlen
    · exact ⟨rfl, rfl⟩
  · intro n s h
    subst h
    exact rfl

/-- Witness for claim C8 at concrete inputs: a one-element argument list
yields ValueError with nothing inserted, and a two-element list inserts
exactly its row. -/
theorem main_unpack_guard_witness :
    ((ArgparseMain.main ["solo"] "2025-10-12").result = Except.error PyError.valueError ∧
      (ArgparseMain.main ["solo"] "2025-10-12").insertedRows = []) ∧
    (ArgparseMain.main ["a", "2"] "2025-10-12").insertedRows = [⟨"a", "2", "2025-10-12"⟩] :=
  ⟨(main_unpack_guard ["solo"] "2025-10-12").1 (by decide),
   (main_unpack_guard ["a", "2"] "2025-10-12").2 "a" "2" rfl⟩

/-- Claim C9: main always works on fresh in-memory databases. The table
its initialize_database call creates lives on that call's own connection
(left in state `some []`), while the insert/fetch connection starts from
the fresh `memoryDB`, which has no table; main takes no store as input,
and for every two-element argument list it fetches exactly the single
record it just inserted — never a record from a prior invocation or from
an on-disk database. -/
theorem main_fresh_memory_db (n s t : String) :
    (ArgparseMain.init_db memoryDB).db = some [] ∧
    memoryDB = (none : DB) ∧
    ArgparseMain.main [n, s] t = ⟨Except.ok (some ⟨n, s, t⟩), [⟨n, s, t⟩]⟩ :=
  ⟨rfl, rfl, rfl⟩

/-- Claim C10: the size column stores exactly the text supplied on the
command line. For every string s — numeric or not, positive or not —
update appends a row whose size field is the very string s with no
conversion or positivity check, and summary returns that identical
string. -/
theorem size_column_stores_raw_text (rows : List Row) (n s t : String) :
    (ClickMain.update (some rows) n s t).db = some (rows ++ [⟨n, s, t⟩]) ∧
    ((ClickMain.update (some rows) n s t).db.getD []).map Row.size
      = rows.map Row.size ++ [s] ∧
    (ClickMain.summary ((ClickMain.update (some rows) n s t).db)).result
      = Except.ok (rows ++ [⟨n, s, t⟩]) := by
  refine ⟨rfl, ?_, rfl⟩
  simp [ClickMain.update, insertRow]

end AppsSizes
